import Mathlib

/-!
Verification of the calculation-execution and result-normalization core of the
quacc/htase workflow layer, as a shallow embedding in Lean 4.

The embedding covers:
* the JSON sanitization and dictionary-merge semantics used by the generic
  normalization operation `results_to_db` (htase/schemas/cclib.py);
* the structure-reset sub-operation `prep_next_run_` and the structure-derived
  field mapping `atoms_to_db` (their source files are not part of the snapshot;
  they are modelled from the specification);
* the scratch execution primitive `run_calc` and the ideal-gas thermochemistry
  post-processor `ideal_gas_thermo` (quacc/util/calc.py is not part of the
  snapshot; they are modelled from the specification and pinned against the
  repository test suite tests/util/test_calc.py);
* the ORCA recipe calculator assignment (quacc/recipes/orca/core.py) and the
  Vasp constraint pre-check (quacc/calculators/vasp.py), both embedded from
  source.
-/

namespace Quacc

/-! ### Python values and JSON sanitization

`PyVal` models the Python values that flow through the summarization layer:
JSON-representable leaves, lists, string-keyed dicts, and opaque live objects
(the non-serializable case).  Floats are modelled as exact rationals. -/

inductive PyVal where
  | vnone : PyVal
  | vbool : Bool → PyVal
  | vint : Int → PyVal
  | vrat : Rat → PyVal
  | vstr : String → PyVal
  | vlist : List PyVal → PyVal
  | vdict : List (String × PyVal) → PyVal
  | vobj : String → PyVal

mutual

/-- `monty.json.jsanitize`: recursively convert a Python value into a
JSON-serializable one; dicts and lists are sanitized element-wise, JSON leaves
are kept, and any other live object is replaced by its string representation. -/
def jsanitize : PyVal → PyVal
  | .vnone => .vnone
  | .vbool b => .vbool b
  | .vint n => .vint n
  | .vrat q => .vrat q
  | .vstr s => .vstr s
  | .vlist xs => .vlist (jsanitizeList xs)
  | .vdict es => .vdict (jsanitizeDict es)
  | .vobj r => .vstr r

def jsanitizeList : List PyVal → List PyVal
  | [] => []
  | x :: xs => jsanitize x :: jsanitizeList xs

def jsanitizeDict : List (String × PyVal) → List (String × PyVal)
  | [] => []
  | (k, v) :: es => (k, jsanitize v) :: jsanitizeDict es

end

mutual

/-- A value is JSON-safe when no opaque live object occurs anywhere in it. -/
def isJsonSafe : PyVal → Bool
  | .vnone => true
  | .vbool _ => true
  | .vint _ => true
  | .vrat _ => true
  | .vstr _ => true
  | .vlist xs => listJsonSafe xs
  | .vdict es => dictJsonSafe es
  | .vobj _ => false

def listJsonSafe : List PyVal → Bool
  | [] => true
  | x :: xs => isJsonSafe x && listJsonSafe xs

def dictJsonSafe : List (String × PyVal) → Bool
  | [] => true
  | (_, v) :: es => isJsonSafe v && dictJsonSafe es

end

mutual

theorem isJsonSafe_jsanitize : ∀ v : PyVal, isJsonSafe (jsanitize v) = true
  | .vnone => rfl
  | .vbool _ => rfl
  | .vint _ => rfl
  | .vrat _ => rfl
  | .vstr _ => rfl
  | .vlist xs => by
      rw [jsanitize, isJsonSafe]
      exact listJsonSafe_jsanitizeList xs
  | .vdict es => by
      rw [jsanitize, isJsonSafe]
      exact dictJsonSafe_jsanitizeDict es
  | .vobj _ => rfl

theorem listJsonSafe_jsanitizeList : ∀ xs : List PyVal, listJsonSafe (jsanitizeList xs) = true
  | [] => rfl
  | x :: xs => by
      rw [jsanitizeList, listJsonSafe, isJsonSafe_jsanitize x, listJsonSafe_jsanitizeList xs]
      rfl

theorem dictJsonSafe_jsanitizeDict :
    ∀ es : List (String × PyVal), dictJsonSafe (jsanitizeDict es) = true
  | [] => rfl
  | (k, v) :: es => by
      rw [jsanitizeDict, dictJsonSafe, isJsonSafe_jsanitize v, dictJsonSafe_jsanitizeDict es]
      rfl

end

/-! ### Python dict primitives

Python dicts are modelled as association lists without duplicate keys; `{**a,
**b}` keeps the keys of `a` in place (values overridden by `b` on collision)
followed by the new keys of `b`, which is Python's documented merge order. -/

def dictLookup (k : String) : List (String × PyVal) → Option PyVal
  | [] => none
  | (k2, v) :: rest => if k2 = k then some v else dictLookup k rest

def dictKeys (d : List (String × PyVal)) : List String := d.map Prod.fst

/-- The Python double-star merge `\x7b**a, **b\x7d`. -/
def dictMerge (a b : List (String × PyVal)) : List (String × PyVal) :=
  a.map (fun kv => (kv.1, (dictLookup kv.1 b).getD kv.2))
    ++ b.filter (fun kv => (dictLookup kv.1 a).isNone)

theorem dictLookup_append (k : String) (xs ys : List (String × PyVal)) :
    dictLookup k (xs ++ ys) =
      match dictLookup k xs with
      | some v => some v
      | none => dictLookup k ys := by
  induction xs with
  | nil => simp [dictLookup]
  | cons kv rest ih =>
      obtain ⟨k2, v⟩ := kv
      by_cases h : k2 = k
      · simp [dictLookup, h]
      · simpa [dictLookup, h] using ih

theorem dictKeys_jsanitizeDict (d : List (String × PyVal)) :
    dictKeys (jsanitizeDict d) = dictKeys d := by
  induction d with
  | nil => rfl
  | cons kv rest ih =>
      obtain ⟨k, v⟩ := kv
      rw [jsanitizeDict]
      simpa [dictKeys] using ih

theorem dictLookup_jsanitizeDict (k : String) (d : List (String × PyVal)) :
    dictLookup k (jsanitizeDict d) = (dictLookup k d).map jsanitize := by
  induction d with
  | nil => rfl
  | cons kv rest ih =>
      obtain ⟨k2, v⟩ := kv
      by_cases h : k2 = k
      · simp [jsanitizeDict, dictLookup, h]
      · simpa [jsanitizeDict, dictLookup, h] using ih

theorem dictLookup_map_override (k : String) (a b : List (String × PyVal)) :
    dictLookup k (a.map (fun kv => (kv.1, (dictLookup kv.1 b).getD kv.2))) =
      (dictLookup k a).map (fun v => (dictLookup k b).getD v) := by
  induction a with
  | nil => rfl
  | cons kv rest ih =>
      obtain ⟨k2, v⟩ := kv
      by_cases h : k2 = k
      · subst h
        simp [dictLookup]
      · simpa [dictLookup, h] using ih

theorem dictLookup_filter_of_none (k : String) (a b : List (String × PyVal))
    (h : dictLookup k a = none) :
    dictLookup k (b.filter (fun kv => (dictLookup kv.1 a).isNone)) = dictLookup k b := by
  induction b with
  | nil => rfl
  | cons kv rest ih =>
      obtain ⟨k2, v⟩ := kv
      by_cases hk : k2 = k
      · subst hk
        simp [List.filter, h, dictLookup]
      · rcases hnone : (dictLookup k2 a).isNone with _ | _
        · simpa [List.filter, hnone, dictLookup, hk] using ih
        · simpa [List.filter, hnone, dictLookup, hk] using ih

/-- Lookup in a Python merge: the right dict wins on collisions, otherwise the
left dict's binding (or the right dict's new binding) is found. -/
theorem dictLookup_dictMerge (k : String) (a b : List (String × PyVal)) :
    dictLookup k (dictMerge a b) =
      match dictLookup k b with
      | some v => some v
      | none => dictLookup k a := by
  unfold dictMerge
  rw [dictLookup_append, dictLookup_map_override]
  rcases ha : dictLookup k a with _ | v
  · rw [dictLookup_filter_of_none k a b ha]
    rcases hb : dictLookup k b with _ | w <;> simp
  · rcases hb : dictLookup k b with _ | w <;> simp [Option.map, hb]

theorem dictKeys_dictMerge (a b : List (String × PyVal))
    (h : ∀ kv ∈ b, dictLookup kv.1 a = none) :
    dictKeys (dictMerge a b) = dictKeys a ++ dictKeys b := by
  unfold dictMerge
  rw [dictKeys, List.map_append]
  congr 1
  · rw [List.map_map]
    rfl
  · have hfilter : b.filter (fun kv => (dictLookup kv.1 a).isNone) = b := by
      rw [List.filter_eq_self]
      intro kv hkv
      rw [h kv hkv]
      rfl
    rw [hfilter]
    rfl

/-! ### Structures and calculators

The ASE `Atoms` object is an external collaborator type: atomic sites with
charges and magnetic moments, an optional attached calculator, a unique
identifier, and the delegated point-group/linearity classification used by the
thermochemistry post-processor. -/

structure Calculator where
  /-- `calc.results`: the engine-native results mapping, populated by a run. -/
  results : List (String × PyVal)
  /-- `calc.parameters`: the flattened calculator input parameters. -/
  parameters : List (String × PyVal)
  /-- The computed (final) magnetic moments attached to the calculator state,
  if the engine produced any. -/
  magmoms : Option (List Rat)

structure Atoms where
  natoms : Nat
  formula : String
  initialCharges : List Rat
  initialMagmoms : List Rat
  /-- Rotational geometry classification (true = linear), delegated to the
  structure-modeling collaborator library. -/
  linear : Bool
  /-- Point-group label, delegated to the structure-modeling collaborator. -/
  pointgroup : String
  uniqueId : Nat
  /-- The optionally attached calculator (`atoms.calc`; `calc` is a reserved
  word in Lean, hence the trailing underscore). -/
  calc_ : Option Calculator

/-- Modelled from the spec: `atoms_to_db` (htase/schemas/atoms.py, which is not
part of the source snapshot) tabulates the structure-derived fields of the
Summary Record — "site count, composition, etc." (spec section 3) — together
with the structure's identity and magnetic-moment state, which the reset
sub-operation of spec section 4.5 makes part of the stored record. -/
def atoms_to_db (atoms : Atoms) : List (String × PyVal) :=
  [("nsites", .vint (atoms.natoms : Int)),
   ("formula", .vstr atoms.formula),
   ("atoms_id", .vint (atoms.uniqueId : Int)),
   ("initial_magmoms", .vlist (atoms.initialMagmoms.map PyVal.vrat))]

/-- Modelled from the spec: `prep_next_run` (htase/util/atoms.py, which is not
part of the source snapshot) detaches the calculator, copies the computed
magnetic moments into the initial-magnetic-moment slot, and assigns a freshly
generated unique identifier distinguishing the structure from its
pre-calculation counterpart (spec section 4.5).  Fresh-identifier generation is
modelled as a successor, which guarantees the new identifier differs. -/
def prep_next_run_ (atoms : Atoms) : Atoms :=
  { atoms with
    initialMagmoms :=
      match atoms.calc_ with
      | some c => c.magmoms.getD atoms.initialMagmoms
      | none => atoms.initialMagmoms
    calc_ := none
    uniqueId := atoms.uniqueId + 1 }

/-! ### Generic result normalization (htase/schemas/cclib.py) -/

/-- The four distinct failures `results_to_db` can raise, in source order:
two `ValueError`s for the calculator preconditions, a `FileNotFoundError` for a
missing output file, and a `ValueError` naming the path cclib could not parse. -/
inductive SchemaError where
  | noCalculator : SchemaError
  | emptyResults : SchemaError
  | fileNotFound : String → SchemaError
  | parseFailed : String → SchemaError
deriving DecidableEq

/-- The exception message attached to each failure in the source. -/
def SchemaError.message : SchemaError → String
  | .noCalculator => "ASE Atoms object has no attached calculator."
  | .emptyResults => "ASE Atoms object's calculator has no results."
  | .fileNotFound path => "Could not find " ++ path
  | .parseFailed path => "cclib could not parse " ++ path

/-- The object returned by `cclib.io.ccopen(...).parse()`: the parsed attribute
dict (`getattributes()`) and the parser metadata mapping. -/
structure ParsedOutput where
  attributes : List (String × PyVal)
  metadata : List (String × PyVal)

/-- The state of the engine output file on disk: whether `os.path.exists` holds
and what `cclib.io.ccopen` returns for it (`none` when cclib cannot parse). -/
structure OutputFileState where
  onDisk : Bool
  parsed : Option ParsedOutput

/-- `results_to_db` (htase/schemas/cclib.py): validate the calculator and the
output file, parse the file with cclib, prepare the structure for the next run
when requested, and merge atoms-derived fields, calculator inputs, parser
metadata, and the parsed output into one JSON-sanitized mapping via
`\x7b**atoms_db, **inputs, **metadata, **results\x7d`. -/
def results_to_db (atoms : Atoms) (output_file : String) (fs : OutputFileState)
    (prep_next_run : Bool := true) : Except SchemaError (List (String × PyVal)) :=
  match atoms.calc_ with
  | none => .error .noCalculator
  | some c =>
    if c.results.isEmpty then .error .emptyResults
    else if !fs.onDisk then .error (.fileNotFound output_file)
    else
      match fs.parsed with
      | none => .error (.parseFailed output_file)
      | some outputs =>
        let outputs_dict := outputs.attributes
        let results : List (String × PyVal) := [("output", .vdict outputs_dict)]
        let metadata := outputs.metadata
        let inputs := c.parameters
        let atoms2 := if prep_next_run then prep_next_run_ atoms else atoms
        let atoms_db := atoms_to_db atoms2
        let results_full := dictMerge (dictMerge (dictMerge atoms_db inputs) metadata) results
        .ok (jsanitizeDict results_full)

/-- Total projection of a normalization outcome to its record (empty on error). -/
def resultsOf (e : Except SchemaError (List (String × PyVal))) : List (String × PyVal) :=
  match e with
  | .ok r => r
  | .error _ => []

/-- Whether a normalization outcome succeeded. -/
def schemaOk (e : Except SchemaError (List (String × PyVal))) : Bool :=
  match e with
  | .ok _ => true
  | .error _ => false

/-! ### Scratch execution primitive (quacc/util/calc.py, modelled) -/

/-- Filesystem state seen by one invocation: the set of file names in the
permanent run directory and in the scratch working directory.  Contents are
irrelevant to the claims; presence by name is what the tests observe. -/
structure FileSys where
  perm : List String
  scratch : List String
deriving DecidableEq

/-- Failures of the execution primitive: the pre-flight configuration error
(`ValueError`, no attached calculator) and an external engine failure, which
propagates as-is. -/
inductive CalcError where
  | noCalculator : CalcError
  | engineFailed : CalcError
deriving DecidableEq

/-- The behaviour of the blocking engine call, a black box to this layer:
either the external process fails, or it succeeds, creating files in the
working directory and populating a non-empty results mapping (spec section 4.1
step 6: results must be non-empty on success, so a successful outcome carries
at least one entry). -/
inductive EngineOutcome where
  | failure : EngineOutcome
  | success : (String × PyVal) → List (String × PyVal) → List String → EngineOutcome

/-- Name of the compressed artifact for a file (compression suffix appended). -/
def gzipName (f : String) : String := f ++ ".gz"

/-- Modelled from the spec: `run_calc` (quacc/util/calc.py, which is not part
of the source snapshot), the Scratch Execution Primitive of spec section 4.1.
It validates that a calculator is attached before any filesystem mutation,
stages every `copy_files` entry that exists in the permanent directory into the
scratch working directory, triggers the engine, compresses the working
directory's files when `gzip` is set (removing the uncompressed scratch copy),
and copies the working directory's files back into the permanent directory,
overwriting namesakes.  The gzip run of tests/util/test_calc.py pins the
copy-back semantics: the permanent directory's own files are never deleted, so
a staged file's uncompressed original remains there next to its compressed
artifact. -/
def run_calc (atoms : Atoms) (fs : FileSys) (engine : EngineOutcome)
    (gzip : Bool) (copy_files : List String) :
    Except CalcError Atoms × FileSys :=
  match atoms.calc_ with
  | none => (.error .noCalculator, fs)
  | some c =>
    let staged := copy_files.filter (fun f => decide (f ∈ fs.perm))
    let fs1 : FileSys := { fs with scratch := fs.scratch ++ staged }
    match engine with
    | .failure => (.error .engineFailed, fs1)
    | .success r rs newFiles =>
      let working := fs1.scratch ++ newFiles
      let outFiles := if gzip then working.map gzipName else working
      let fs2 : FileSys :=
        { perm := fs.perm ++ outFiles.filter (fun g => decide (g ∉ fs.perm))
          scratch := outFiles }
      (.ok { atoms with calc_ := some { c with results := r :: rs } }, fs2)

/-- Whether an execution outcome succeeded. -/
def runOk (e : Except CalcError Atoms) : Bool :=
  match e with
  | .ok _ => true
  | .error _ => false

/-- The results mapping of a structure's attached calculator (empty if none). -/
def calcResults (atoms : Atoms) : List (String × PyVal) :=
  match atoms.calc_ with
  | some c => c.results
  | none => []

/-! ### Ideal-gas thermochemistry post-processor (quacc/util/calc.py, modelled) -/

/-- A complex-valued vibrational frequency.  ASE's finite-difference vibration
module returns frequencies that are purely real (real modes) or purely
imaginary (imaginary modes), so rational real/imaginary parts are exact. -/
structure CFreq where
  re : Rat
  im : Rat
deriving DecidableEq

/-- Magnitude of a complex frequency; `Rat.sqrt` is exact on the purely real or
purely imaginary frequencies the vibration module produces. -/
def cabs (c : CFreq) : Rat := Rat.sqrt (c.re ^ 2 + c.im ^ 2)

/-- The sign-convention transform of spec section 4.4: a frequency with a
nonzero imaginary component becomes the negative of its magnitude; otherwise
its real part is kept as-is. -/
def transform_freq (c : CFreq) : Rat := if c.im ≠ 0 then -(cabs c) else c.re

/-- The `results` sub-mapping of the thermochemistry record (the fields the
claims are about; the delegated thermodynamic quantities are omitted). -/
structure ThermoResults where
  frequencies : List Rat
  true_frequencies : List Rat
  n_imag : Nat
  geometry : String
  pointgroup : String
deriving DecidableEq

/-- Number of genuine vibrational modes expected at a stationary point:
`3N - 5` for a linear geometry, `3N - 6` for a nonlinear one. -/
def n_vib (atoms : Atoms) : Nat :=
  if atoms.linear then 3 * atoms.natoms - 5 else 3 * atoms.natoms - 6

/-- Modelled from the spec: `ideal_gas_thermo` (quacc/util/calc.py, which is
not part of the source snapshot).  The transformed `frequencies` apply the sign
convention in input order; `true_frequencies` keeps the trailing `3N-5` or
`3N-6` entries (the leading rigid-body slots are dropped positionally, exactly
as the worked example of spec section 8 and the assertions of
tests/util/test_calc.py require — a negative entry such as `-200` is kept);
`n_imag` counts the negative entries among the true frequencies (the worked
example requires `n_imag = 1` although the transformed sequence holds two
negatives, so the count is over the true frequencies). -/
def ideal_gas_thermo (atoms : Atoms) (vib_freqs : List CFreq) : ThermoResults :=
  let freqs := vib_freqs.map transform_freq
  let true_freqs := freqs.drop (freqs.length - n_vib atoms)
  { frequencies := freqs
    true_frequencies := true_freqs
    n_imag := (true_freqs.filter (fun f => decide (f < 0))).length
    geometry := if atoms.linear then "linear" else "nonlinear"
    pointgroup := atoms.pointgroup }

/-! ### ORCA recipe calculator assignment (quacc/recipes/orca/core.py) -/

/-- Python's built-in banker's rounding (`round`): round half to even. -/
def pyRound (q : Rat) : Int :=
  let f := ⌊q⌋
  let frac := q - f
  if frac < 1 / 2 then f
  else if 1 / 2 < frac then f + 1
  else if f % 2 = 0 then f else f + 1

/-- Python truthiness of an optional integer argument: `None` and `0` are
falsy, every other integer is truthy. -/
def pyTruthy (x : Option Int) : Bool :=
  match x with
  | none => false
  | some n => n != 0

/-- The `charge=` argument of the `ORCA(...)` constructor call in both
`StaticJob.make` and `RelaxJob.make`:
`charge if charge else round(sum(atoms.get_initial_charges()))`. -/
def orca_charge_arg (charge : Option Int) (atoms : Atoms) : Int :=
  if pyTruthy charge then charge.getD 0
  else pyRound atoms.initialCharges.sum

/-- The `mult=` argument of the `ORCA(...)` constructor call in both
`StaticJob.make` and `RelaxJob.make`:
`mult if mult else round(1 + sum(atoms.get_initial_magnetic_moments()))`. -/
def orca_mult_arg (mult : Option Int) (atoms : Atoms) : Int :=
  if pyTruthy mult then mult.getD 0
  else pyRound (1 + atoms.initialMagmoms.sum)

/-- The charge/multiplicity configuration of the ORCA calculator a recipe
attaches to the structure. -/
structure ORCAParams where
  charge : Int
  mult : Int
deriving DecidableEq

/-- The calculator assignment of `StaticJob.make` (orca/core.py lines 95-100). -/
def StaticJob_make_calc (atoms : Atoms) (charge mult : Option Int) : ORCAParams :=
  { charge := orca_charge_arg charge atoms
    mult := orca_mult_arg mult atoms }

/-- The calculator assignment of `RelaxJob.make` (orca/core.py lines 186-191),
textually identical to the one in `StaticJob.make`. -/
def RelaxJob_make_calc (atoms : Atoms) (charge mult : Option Int) : ORCAParams :=
  { charge := orca_charge_arg charge atoms
    mult := orca_mult_arg mult atoms }

/-! ### Vasp constraint pre-check (quacc/calculators/vasp.py) -/

/-- An ASE constraint attached to an Atoms object: either a `FixAtoms`
constraint or any other constraint class (identified by name). -/
inductive AseConstraint where
  | fixAtoms : List Nat → AseConstraint
  | other : String → AseConstraint
deriving DecidableEq

/-- `isinstance(c, FixAtoms)`. -/
def isFixAtoms : AseConstraint → Bool
  | .fixAtoms _ => true
  | .other _ => false

/-- The constraint check at the top of `Vasp.__init__` (vasp.py lines 82-90):
raise a `ValueError` when Custodian is requested and the Atoms object carries a
constraint that is not `FixAtoms`; otherwise fall through to the rest of the
constructor. -/
def Vasp_init_constraint_check (custodian : Bool) (constraints : List AseConstraint) :
    Except String Unit :=
  if custodian && !constraints.isEmpty && !(constraints.all isFixAtoms)
  then .error "Atoms object has a constraint that is not compatible with Custodian"
  else .ok ()

/-! ### Concrete instances

A methane-like structure and the frequency spectrum of the test parity example
(tests/util/test_calc.py, test_ideal_gas_thermo), plus a small normalization
scenario used as witness data. -/

def ch4 : Atoms :=
  { natoms := 5
    formula := "CH4"
    initialCharges := [0, 0, 0, 0, 0]
    initialMagmoms := [0, 0, 0, 0, 0]
    linear := false
    pointgroup := "Td"
    uniqueId := 0
    calc_ := none }

/-- The frequency list of the worked example:
`[0, 0, 0, 0, 0, 10j, 200j, 500, 1000, 1500, 2000, 2500, 3000, 3500, 4000]`. -/
def dummy_freqs : List CFreq :=
  [⟨0, 0⟩, ⟨0, 0⟩, ⟨0, 0⟩, ⟨0, 0⟩, ⟨0, 0⟩, ⟨0, 10⟩, ⟨0, 200⟩, ⟨500, 0⟩,
   ⟨1000, 0⟩, ⟨1500, 0⟩, ⟨2000, 0⟩, ⟨2500, 0⟩, ⟨3000, 0⟩, ⟨3500, 0⟩, ⟨4000, 0⟩]

def sampleCalc : Calculator :=
  { results := [("energy", .vrat (-1))]
    parameters := [("charge", .vint 0), ("mult", .vint 1)]
    magmoms := some [1, 0, 0, 0, 0] }

def sampleAtoms : Atoms := { ch4 with calc_ := some sampleCalc }

def sampleOutput : ParsedOutput :=
  { attributes := [("natom", .vint 5), ("scfenergies", .vlist [.vrat (-1)])]
    metadata := [("package", .vstr "Gaussian"), ("success", .vbool true)] }

def sampleFile : OutputFileState := { onDisk := true, parsed := some sampleOutput }

/-! ### Supporting lemmas -/

theorem dictLookup_eq_none (k : String) (d : List (String × PyVal)) (h : k ∉ dictKeys d) :
    dictLookup k d = none := by
  induction d with
  | nil => rfl
  | cons kv rest ih =>
      obtain ⟨k2, v⟩ := kv
      simp only [dictKeys, List.map_cons, List.mem_cons] at h
      push_neg at h
      rw [dictLookup, if_neg (fun hk => h.1 hk.symm)]
      exact ih h.2

theorem dictLookup_dictMerge_none (k : String) (a b : List (String × PyVal))
    (ha : dictLookup k a = none) (hb : dictLookup k b = none) :
    dictLookup k (dictMerge a b) = none := by
  rw [dictLookup_dictMerge, hb]
  exact ha

theorem dictLookup_atoms_to_db_id (a : Atoms) :
    dictLookup "atoms_id" (atoms_to_db a) = some (.vint (a.uniqueId : Int)) := by
  simp [atoms_to_db, dictLookup]

theorem dictLookup_atoms_to_db_magmoms (a : Atoms) :
    dictLookup "initial_magmoms" (atoms_to_db a) =
      some (.vlist (a.initialMagmoms.map PyVal.vrat)) := by
  simp [atoms_to_db, dictLookup]

theorem jsanitizeList_vrat (m : List Rat) :
    jsanitizeList (m.map PyVal.vrat) = m.map PyVal.vrat := by
  induction m with
  | nil => rfl
  | cons q rest ih =>
      rw [List.map_cons, jsanitizeList, ih, jsanitize]

/-- Membership in the permanent directory after copy-back: a file is there
exactly when it was there before or is one of the copied-back files. -/
theorem mem_copyback (x : String) (a l : List String) :
    x ∈ a ++ l.filter (fun g => decide (g ∉ a)) ↔ x ∈ a ∨ x ∈ l := by
  simp only [List.mem_append, List.mem_filter, decide_eq_true_eq]
  constructor
  · rintro (h | ⟨h, _⟩)
    · exact Or.inl h
    · exact Or.inr h
  · rintro (h | h)
    · exact Or.inl h
    · by_cases ha : x ∈ a
      · exact Or.inl ha
      · exact Or.inr ⟨h, ha⟩

example : schemaOk (results_to_db sampleAtoms "orca.out" sampleFile true) = true := by decide

example :
    dictKeys (resultsOf (results_to_db sampleAtoms "orca.out" sampleFile true)) =
      ["nsites", "formula", "atoms_id", "initial_magmoms", "charge", "mult",
       "package", "success", "output"] := by decide

/-- The magnitude of a purely imaginary frequency is exact. -/
theorem cabs_pure_im (b : Rat) : cabs ⟨0, b⟩ = |b| := by
  unfold cabs
  rw [show (0 : Rat) ^ 2 + b ^ 2 = b * b by ring]
  exact Rat.sqrt_eq b

/-- The magnitude of a purely real frequency is exact. -/
theorem cabs_pure_re (a : Rat) : cabs ⟨a, 0⟩ = |a| := by
  unfold cabs
  rw [show a ^ 2 + (0 : Rat) ^ 2 = a * a by ring]
  exact Rat.sqrt_eq a

/-- The sign-convention transform of the worked example's spectrum. -/
theorem dummy_freqs_transformed :
    dummy_freqs.map transform_freq =
      [0, 0, 0, 0, 0, -10, -200, 500, 1000, 1500, 2000, 2500, 3000, 3500, 4000] := by
  simp [dummy_freqs, transform_freq, cabs_pure_im]

/-- The thermochemistry record of the worked example, computed in full. -/
theorem ideal_gas_thermo_ch4 :
    ideal_gas_thermo ch4 dummy_freqs =
      { frequencies := [0, 0, 0, 0, 0, -10, -200, 500, 1000, 1500, 2000, 2500, 3000, 3500, 4000]
        true_frequencies := [-200, 500, 1000, 1500, 2000, 2500, 3000, 3500, 4000]
        n_imag := 1
        geometry := "nonlinear"
        pointgroup := "Td" } := by
  simp only [ideal_gas_thermo]
  rw [dummy_freqs_transformed]
  decide

example :
    (run_calc sampleAtoms ⟨["f.txt"], []⟩ (.success ("energy", .vrat 1) [] ["engine.log"])
        true ["f.txt"]).2.perm = ["f.txt", "f.txt.gz", "engine.log.gz"] := by decide

example :
    (run_calc sampleAtoms ⟨["f.txt"], []⟩ (.success ("energy", .vrat 1) [] ["engine.log"])
        false ["f.txt"]).2.perm = ["f.txt", "engine.log"] := by decide

/-! ### Claims -/

/-- Claim C7: invoking the Execution Primitive on a Structure with no attached
calculator fails with the configuration error and performs no filesystem
mutation: the filesystem state is returned exactly as it was. -/
theorem claim_C7 (atoms : Atoms) (fs : FileSys) (engine : EngineOutcome)
    (gzip : Bool) (copy_files : List String) (h : atoms.calc_ = none) :
    run_calc atoms fs engine gzip copy_files = (.error .noCalculator, fs) := by
  unfold run_calc
  rw [h]

theorem claim_C7_witness :
    run_calc ch4 ⟨["f.txt"], []⟩ .failure false ["f.txt"] =
      (.error .noCalculator, ⟨["f.txt"], []⟩) :=
  claim_C7 ch4 ⟨["f.txt"], []⟩ .failure false ["f.txt"] rfl

/-- Claim C8: whenever the Execution Primitive returns normally, the returned
Structure's calculator results mapping is non-empty; there is no
partial-success state. -/
theorem claim_C8 (atoms a2 : Atoms) (fs : FileSys) (engine : EngineOutcome)
    (gzip : Bool) (copy_files : List String)
    (h : (run_calc atoms fs engine gzip copy_files).1 = .ok a2) :
    a2.calc_.isSome = true ∧ (calcResults a2).isEmpty = false := by
  unfold run_calc at h
  rcases hc : atoms.calc_ with _ | c
  · rw [hc] at h
    exact absurd h (by simp)
  · rw [hc] at h
    rcases engine with _ | ⟨r, rs, newFiles⟩
    · exact absurd h (by simp)
    · simp only [Except.ok.injEq] at h
      subst h
      exact ⟨rfl, rfl⟩

theorem claim_C8_witness :
    ({ sampleAtoms with
        calc_ := some { sampleCalc with results := [("energy", .vrat 1)] } } : Atoms).calc_.isSome
        = true
    ∧ (calcResults { sampleAtoms with
        calc_ := some { sampleCalc with results := [("energy", .vrat 1)] } }).isEmpty = false :=
  claim_C8 sampleAtoms
    { sampleAtoms with calc_ := some { sampleCalc with results := [("energy", .vrat 1)] } }
    ⟨["f.txt"], []⟩ (.success ("energy", .vrat 1) [] []) true ["f.txt"] rfl

/-- Claim C9: in the ORCA recipes, an explicitly passed `charge=0` (or
`mult=0`) is falsy in Python, so `charge if charge else ...` falls back to the
value computed from the structure, exactly as if `None` had been passed; only
nonzero explicit values are honored.  This holds for both `StaticJob.make` and
`RelaxJob.make`, whose calculator assignments are identical. -/
theorem claim_C9 (atoms : Atoms) :
    (StaticJob_make_calc atoms (some 0) (some 0)).charge = pyRound atoms.initialCharges.sum
  ∧ (StaticJob_make_calc atoms (some 0) (some 0)).mult =
      pyRound (1 + atoms.initialMagmoms.sum)
  ∧ StaticJob_make_calc atoms (some 0) (some 0) = StaticJob_make_calc atoms none none
  ∧ RelaxJob_make_calc atoms (some 0) (some 0) = StaticJob_make_calc atoms (some 0) (some 0)
  ∧ (∀ c : Int, c ≠ 0 →
      (StaticJob_make_calc atoms (some c) (some 0)).charge = c
      ∧ (RelaxJob_make_calc atoms (some c) (some 0)).charge = c)
  ∧ (∀ m : Int, m ≠ 0 →
      (StaticJob_make_calc atoms (some 0) (some m)).mult = m
      ∧ (RelaxJob_make_calc atoms (some 0) (some m)).mult = m) := by
  refine ⟨rfl, rfl, rfl, rfl, ?_, ?_⟩ <;> intro n hn <;>
    simp [StaticJob_make_calc, RelaxJob_make_calc, orca_charge_arg, orca_mult_arg, pyTruthy, hn]

theorem claim_C9_witness :
    ((StaticJob_make_calc ch4 (some (-2)) (some 0)).charge = -2
      ∧ (RelaxJob_make_calc ch4 (some (-2)) (some 0)).charge = -2)
    ∧ ((StaticJob_make_calc ch4 (some 0) (some 3)).mult = 3
      ∧ (RelaxJob_make_calc ch4 (some 0) (some 3)).mult = 3) :=
  ⟨(claim_C9 ch4).2.2.2.2.1 (-2) (by decide), (claim_C9 ch4).2.2.2.2.2 3 (by decide)⟩

/-- Claim C10: the constraint pre-check of `Vasp.__init__` raises its
ValueError exactly when Custodian is requested and the Atoms object carries at
least one constraint that is not `FixAtoms`; with `custodian=false`, or with
only `FixAtoms` constraints, construction proceeds past this check. -/
theorem claim_C10 (custodian : Bool) (constraints : List AseConstraint) :
    Vasp_init_constraint_check custodian constraints =
        .error "Atoms object has a constraint that is not compatible with Custodian"
      ↔ (custodian = true ∧ ∃ c ∈ constraints, isFixAtoms c = false) := by
  unfold Vasp_init_constraint_check
  constructor
  · intro h
    split at h
    next hcond =>
      simp only [Bool.and_eq_true, Bool.not_eq_true'] at hcond
      obtain ⟨⟨hcust, _⟩, hall⟩ := hcond
      refine ⟨hcust, ?_⟩
      rw [List.all_eq_false] at hall
      obtain ⟨c, hc, hcf⟩ := hall
      exact ⟨c, hc, by simpa using hcf⟩
    next => exact absurd h (by simp)
  · rintro ⟨hcust, c, hc, hcf⟩
    subst hcust
    have hcond : (true && !constraints.isEmpty && !(constraints.all isFixAtoms)) = true := by
      simp only [Bool.true_and, Bool.and_eq_true, Bool.not_eq_true']
      refine ⟨?_, ?_⟩
      · rw [List.isEmpty_eq_false]
        exact List.ne_nil_of_mem hc
      · rw [List.all_eq_false]
        exact ⟨c, hc, by simp [hcf]⟩
    rw [if_pos hcond]

/-- Claim C2 counterexample: a successful run with `copy_files = ["f.txt"]` and
`gzip = true` leaves the compressed artifact `f.txt.gz` in the permanent
directory, but the uncompressed `f.txt` is still present there as well — the
file does not exist "only in compressed form".  This is exactly what the
repository's own test asserts after its gzip-enabled run
(tests/util/test_calc.py: both `test_file.txt` and `test_file.txt.gz` exist). -/
theorem claim_C2_counterexample :
    runOk (run_calc sampleAtoms ⟨["f.txt"], []⟩ (.success ("energy", .vrat 1) [] [])
        true ["f.txt"]).1 = true
  ∧ "f.txt.gz" ∈ (run_calc sampleAtoms ⟨["f.txt"], []⟩ (.success ("energy", .vrat 1) [] [])
        true ["f.txt"]).2.perm
  ∧ "f.txt" ∈ (run_calc sampleAtoms ⟨["f.txt"], []⟩ (.success ("energy", .vrat 1) [] [])
        true ["f.txt"]).2.perm := by
  decide

/-- Claim C2 (amended): after a successful run with `f.txt` in `copy_files` and
in the permanent directory, with `gzip=false` the file is present uncompressed
in the permanent directory and no `f.txt.gz` is created (provided none existed
anywhere beforehand and the engine creates none); with `gzip=true` the
compressed `f.txt.gz` is present in the permanent directory and the
uncompressed original also remains there — only the scratch copy is removed by
compression. -/
theorem claim_C2 (atoms : Atoms) (fs : FileSys) (r : String × PyVal)
    (rs : List (String × PyVal)) (newFiles : List String) (copy_files : List String)
    (f : String) (hcalc : atoms.calc_.isSome = true)
    (hperm : f ∈ fs.perm) (hcopy : f ∈ copy_files) :
    (f ∈ (run_calc atoms fs (.success r rs newFiles) false copy_files).2.perm
      ∧ (gzipName f ∉ fs.perm → gzipName f ∉ fs.scratch → gzipName f ∉ copy_files →
          gzipName f ∉ newFiles →
          gzipName f ∉ (run_calc atoms fs (.success r rs newFiles) false copy_files).2.perm))
  ∧ (f ∈ (run_calc atoms fs (.success r rs newFiles) true copy_files).2.perm
      ∧ gzipName f ∈ (run_calc atoms fs (.success r rs newFiles) true copy_files).2.perm) := by
  rcases hc : atoms.calc_ with _ | c
  · rw [hc] at hcalc
    exact absurd hcalc (by simp)
  · have hstaged : f ∈ copy_files.filter (fun g => decide (g ∈ fs.perm)) := by
      rw [List.mem_filter]
      exact ⟨hcopy, by simpa using hperm⟩
    refine ⟨⟨?_, ?_⟩, ?_, ?_⟩
    · unfold run_calc
      rw [hc]
      simp only [Bool.false_eq_true, if_false]
      rw [mem_copyback]
      exact Or.inl hperm
    · intro h1 h2 h3 h4
      unfold run_calc
      rw [hc]
      simp only [Bool.false_eq_true, if_false]
      rw [mem_copyback]
      rintro (hmem | hmem)
      · exact h1 hmem
      · rcases List.mem_append.mp hmem with hmem2 | hmem2
        · rcases List.mem_append.mp hmem2 with hmem3 | hmem3
          · exact h2 hmem3
          · exact h3 (List.mem_of_mem_filter hmem3)
        · exact h4 hmem2
    · unfold run_calc
      rw [hc]
      simp only [if_true]
      rw [mem_copyback]
      exact Or.inl hperm
    · unfold run_calc
      rw [hc]
      simp only [if_true]
      rw [mem_copyback]
      refine Or.inr (List.mem_map_of_mem gzipName ?_)
      rw [List.mem_append]
      exact Or.inl (List.mem_append.mpr (Or.inr hstaged))

theorem claim_C2_witness :
    "f.txt" ∈ (run_calc sampleAtoms ⟨["f.txt"], []⟩
        (.success ("energy", .vrat 1) [] ["engine.log"]) false ["f.txt"]).2.perm
  ∧ gzipName "f.txt" ∉ (run_calc sampleAtoms ⟨["f.txt"], []⟩
        (.success ("energy", .vrat 1) [] ["engine.log"]) false ["f.txt"]).2.perm
  ∧ "f.txt" ∈ (run_calc sampleAtoms ⟨["f.txt"], []⟩
        (.success ("energy", .vrat 1) [] ["engine.log"]) true ["f.txt"]).2.perm
  ∧ gzipName "f.txt" ∈ (run_calc sampleAtoms ⟨["f.txt"], []⟩
        (.success ("energy", .vrat 1) [] ["engine.log"]) true ["f.txt"]).2.perm := by
  have h := claim_C2 sampleAtoms ⟨["f.txt"], []⟩ ("energy", .vrat 1) [] ["engine.log"]
    ["f.txt"] "f.txt" rfl (by decide) (by decide)
  exact ⟨h.1.1, h.1.2 (by decide) (by decide) (by decide) (by decide), h.2.1, h.2.2⟩

/-- Claim C3: the thermochemistry transform maps, position by position, each
complex frequency with nonzero imaginary component to the negative of its
magnitude and each purely real frequency to its real part, preserving input
ordering; on the worked example's spectrum for the nonlinear methane geometry
it yields exactly the frequencies of the test and `n_imag = 1`. -/
theorem claim_C3 :
    (∀ (atoms : Atoms) (freqs : List CFreq) (i : Nat),
        (ideal_gas_thermo atoms freqs).frequencies[i]? =
          (freqs[i]?).map (fun c => if c.im ≠ 0 then -(cabs c) else c.re))
  ∧ (ideal_gas_thermo ch4 dummy_freqs).frequencies =
      [0, 0, 0, 0, 0, -10, -200, 500, 1000, 1500, 2000, 2500, 3000, 3500, 4000]
  ∧ (ideal_gas_thermo ch4 dummy_freqs).n_imag = 1
  ∧ (ideal_gas_thermo ch4 dummy_freqs).geometry = "nonlinear" := by
  refine ⟨?_, ?_, ?_, ?_⟩
  · intro atoms freqs i
    simp only [ideal_gas_thermo, List.getElem?_map]
    rfl
  · rw [ideal_gas_thermo_ch4]
  · rw [ideal_gas_thermo_ch4]
  · rw [ideal_gas_thermo_ch4]

/-- Claim C4 counterexample: on the worked example the `true_frequencies`
field contains `-200`, a negative value, so it is not the sub-sequence of
transformed values greater than a (small positive) cutoff: `-200` exceeds no
positive cutoff. -/
theorem claim_C4_counterexample :
    (-200 : Rat) ∈ (ideal_gas_thermo ch4 dummy_freqs).true_frequencies
  ∧ ¬ (0 : Rat) < -200 := by
  rw [ideal_gas_thermo_ch4]
  exact ⟨by decide, by norm_num⟩

/-- Claim C4 (amended): `true_frequencies` is the positional suffix of the
transformed sequence keeping its last `3N-5` (linear) or `3N-6` (nonlinear)
entries; for a full `3N`-mode spectrum this excludes exactly the first 5 or 6
rigid-body slots, and entries are retained regardless of sign or magnitude
(no cutoff comparison is involved). -/
theorem claim_C4 (atoms : Atoms) (freqs : List CFreq)
    (hfull : freqs.length = 3 * atoms.natoms)
    (hge : (if atoms.linear then 5 else 6) ≤ 3 * atoms.natoms) :
    (ideal_gas_thermo atoms freqs).true_frequencies =
        (freqs.map transform_freq).drop (if atoms.linear then 5 else 6)
    ∧ (ideal_gas_thermo atoms freqs).true_frequencies.length
        + (if atoms.linear then 5 else 6) = freqs.length
    ∧ List.IsSuffix (ideal_gas_thermo atoms freqs).true_frequencies
        (ideal_gas_thermo atoms freqs).frequencies := by
  have hlen : (freqs.map transform_freq).length = 3 * atoms.natoms := by
    simp [hfull]
  have hdrop : (freqs.map transform_freq).length - n_vib atoms =
      (if atoms.linear then 5 else 6) := by
    rw [hlen]
    unfold n_vib
    by_cases hl : atoms.linear = true
    · simp only [hl, reduceIte] at hge ⊢
      omega
    · simp only [Bool.not_eq_true] at hl
      simp [hl] at hge ⊢
      omega
  refine ⟨?_, ?_, ?_⟩
  · simp only [ideal_gas_thermo]
    rw [hdrop]
  · simp only [ideal_gas_thermo]
    rw [hdrop, List.length_drop, hlen]
    by_cases hl : atoms.linear = true
    · simp only [hl, reduceIte] at hge ⊢
      omega
    · simp only [Bool.not_eq_true] at hl
      simp [hl] at hge ⊢
      omega
  · simp only [ideal_gas_thermo]
    exact List.drop_suffix _ _

theorem claim_C4_witness :
    (ideal_gas_thermo ch4 dummy_freqs).true_frequencies =
        (dummy_freqs.map transform_freq).drop (if ch4.linear then 5 else 6)
    ∧ (ideal_gas_thermo ch4 dummy_freqs).true_frequencies.length
        + (if ch4.linear then 5 else 6) = dummy_freqs.length
    ∧ List.IsSuffix (ideal_gas_thermo ch4 dummy_freqs).true_frequencies
        (ideal_gas_thermo ch4 dummy_freqs).frequencies :=
  claim_C4 ch4 dummy_freqs (by decide) (by decide)

/-- The success path of `results_to_db`, spelled out: when all four
preconditions hold, the record is the sanitized four-way merge. -/
theorem results_to_db_success (atoms : Atoms) (c : Calculator) (path : String)
    (out : ParsedOutput) (fs : OutputFileState) (p : Bool)
    (hcalc : atoms.calc_ = some c) (hres : c.results.isEmpty = false)
    (hdisk : fs.onDisk = true) (hparse : fs.parsed = some out) :
    results_to_db atoms path fs p =
      .ok (jsanitizeDict (dictMerge (dictMerge (dictMerge
        (atoms_to_db (if p then prep_next_run_ atoms else atoms)) c.parameters)
        out.metadata) [("output", .vdict out.attributes)])) := by
  unfold results_to_db
  rw [hcalc]
  simp [hres, hdisk, hparse]

theorem dictLookup_dictMerge_right_none (k : String) (a b : List (String × PyVal))
    (hb : dictLookup k b = none) :
    dictLookup k (dictMerge a b) = dictLookup k a := by
  rw [dictLookup_dictMerge, hb]

/-- Claim C5: the generic normalization fails with a distinct error for each
violated precondition, checked in source order — no attached calculator, empty
calculator results, output file missing from disk, output file unparseable
(that error naming the offending path) — and succeeds exactly when all four
preconditions hold.  The four error values are pairwise distinct. -/
theorem claim_C5 (atoms : Atoms) (path : String) (fs : OutputFileState) (p : Bool) :
    (atoms.calc_ = none → results_to_db atoms path fs p = .error .noCalculator)
  ∧ (∀ c, atoms.calc_ = some c → c.results.isEmpty = true →
      results_to_db atoms path fs p = .error .emptyResults)
  ∧ (∀ c, atoms.calc_ = some c → c.results.isEmpty = false → fs.onDisk = false →
      results_to_db atoms path fs p = .error (.fileNotFound path))
  ∧ (∀ c, atoms.calc_ = some c → c.results.isEmpty = false → fs.onDisk = true →
      fs.parsed = none → results_to_db atoms path fs p = .error (.parseFailed path))
  ∧ (∀ c out, atoms.calc_ = some c → c.results.isEmpty = false → fs.onDisk = true →
      fs.parsed = some out → schemaOk (results_to_db atoms path fs p) = true)
  ∧ (SchemaError.parseFailed path).message = "cclib could not parse " ++ path
  ∧ List.Pairwise (fun e1 e2 => e1 ≠ e2)
      [SchemaError.noCalculator, SchemaError.emptyResults,
       SchemaError.fileNotFound path, SchemaError.parseFailed path] := by
  refine ⟨?_, ?_, ?_, ?_, ?_, rfl, ?_⟩
  · intro h
    unfold results_to_db
    rw [h]
  · intro c hc hres
    unfold results_to_db
    rw [hc]
    simp [hres]
  · intro c hc hres hdisk
    unfold results_to_db
    rw [hc]
    simp [hres, hdisk]
  · intro c hc hres hdisk hparse
    unfold results_to_db
    rw [hc]
    simp [hres, hdisk, hparse]
  · intro c out hc hres hdisk hparse
    rw [results_to_db_success atoms c path out fs p hc hres hdisk hparse]
    rfl
  · simp

theorem claim_C5_witness :
    schemaOk (results_to_db sampleAtoms "orca.out" sampleFile true) = true :=
  (claim_C5 sampleAtoms "orca.out" sampleFile true).2.2.2.2.1 sampleCalc sampleOutput rfl
    (by decide) rfl rfl

/-- Claim C1 counterexample: for a Structure with a non-empty calculator
results mapping (and a parseable output file), the record produced by
`results_to_db` has no `results`, `parameters`, or `name` top-level key: the
calculator parameters are spread inline (here as the key `charge`) and the
parsed output lives under the key `output`. -/
theorem claim_C1_counterexample :
    schemaOk (results_to_db sampleAtoms "orca.out" sampleFile true) = true
  ∧ "results" ∉ dictKeys (resultsOf (results_to_db sampleAtoms "orca.out" sampleFile true))
  ∧ "parameters" ∉ dictKeys (resultsOf (results_to_db sampleAtoms "orca.out" sampleFile true))
  ∧ "name" ∉ dictKeys (resultsOf (results_to_db sampleAtoms "orca.out" sampleFile true))
  ∧ "output" ∈ dictKeys (resultsOf (results_to_db sampleAtoms "orca.out" sampleFile true))
  ∧ "charge" ∈ dictKeys (resultsOf (results_to_db sampleAtoms "orca.out" sampleFile true)) := by
  decide

/-- Claim C1 (amended): for every Structure whose attached calculator has
non-empty results (and a parseable output file on disk, with no key
collisions), the record's top-level keys are exactly the structure-derived
fields followed by the calculator parameter keys, the parser metadata keys,
and a single `output` key; no `results`, `parameters`, or `name` key is added.
Every leaf value of the record is JSON-serializable. -/
theorem claim_C1 (atoms : Atoms) (c : Calculator) (path : String) (out : ParsedOutput)
    (fs : OutputFileState)
    (hcalc : atoms.calc_ = some c) (hres : c.results.isEmpty = false)
    (hdisk : fs.onDisk = true) (hparse : fs.parsed = some out)
    (h1 : ∀ k ∈ dictKeys c.parameters,
        k ∉ (["nsites", "formula", "atoms_id", "initial_magmoms"] : List String))
    (h2 : ∀ k ∈ dictKeys out.metadata,
        k ∉ (["nsites", "formula", "atoms_id", "initial_magmoms"] : List String)
        ∧ k ∉ dictKeys c.parameters)
    (h3 : "output" ∉ dictKeys c.parameters ∧ "output" ∉ dictKeys out.metadata) :
    dictKeys (resultsOf (results_to_db atoms path fs true)) =
        ["nsites", "formula", "atoms_id", "initial_magmoms"]
          ++ dictKeys c.parameters ++ dictKeys out.metadata ++ ["output"]
    ∧ dictJsonSafe (resultsOf (results_to_db atoms path fs true)) = true := by
  rw [results_to_db_success atoms c path out fs true hcalc hres hdisk hparse]
  have hadbK : dictKeys (atoms_to_db (if true then prep_next_run_ atoms else atoms)) =
      ["nsites", "formula", "atoms_id", "initial_magmoms"] := rfl
  have k1 : dictKeys (dictMerge (atoms_to_db (if true then prep_next_run_ atoms else atoms))
      c.parameters) = ["nsites", "formula", "atoms_id", "initial_magmoms"]
        ++ dictKeys c.parameters := by
    rw [dictKeys_dictMerge, hadbK]
    intro kv hkv
    apply dictLookup_eq_none
    rw [hadbK]
    exact h1 kv.1 (List.mem_map_of_mem Prod.fst hkv)
  have k2 : dictKeys (dictMerge (dictMerge
      (atoms_to_db (if true then prep_next_run_ atoms else atoms)) c.parameters)
      out.metadata) = ["nsites", "formula", "atoms_id", "initial_magmoms"]
        ++ dictKeys c.parameters ++ dictKeys out.metadata := by
    rw [dictKeys_dictMerge, k1]
    intro kv hkv
    have hkk := h2 kv.1 (List.mem_map_of_mem Prod.fst hkv)
    apply dictLookup_dictMerge_none
    · apply dictLookup_eq_none
      rw [hadbK]
      exact hkk.1
    · exact dictLookup_eq_none _ _ hkk.2
  have k3 : dictKeys (dictMerge (dictMerge (dictMerge
      (atoms_to_db (if true then prep_next_run_ atoms else atoms)) c.parameters)
      out.metadata) [("output", .vdict out.attributes)]) =
        ["nsites", "formula", "atoms_id", "initial_magmoms"]
          ++ dictKeys c.parameters ++ dictKeys out.metadata ++ ["output"] := by
    rw [dictKeys_dictMerge, k2]
    · rfl
    intro kv hkv
    have hkv2 : kv = ("output", PyVal.vdict out.attributes) := by simpa using hkv
    subst hkv2
    apply dictLookup_dictMerge_none
    · apply dictLookup_dictMerge_none
      · apply dictLookup_eq_none
        rw [hadbK]
        show ("output" : String) ∉ (["nsites", "formula", "atoms_id", "initial_magmoms"] : List String)
        decide
      · exact dictLookup_eq_none _ _ h3.1
    · exact dictLookup_eq_none _ _ h3.2
  constructor
  · show dictKeys (jsanitizeDict _) = _
    rw [dictKeys_jsanitizeDict, k3]
  · exact dictJsonSafe_jsanitizeDict _

theorem claim_C1_witness :
    dictKeys (resultsOf (results_to_db sampleAtoms "orca.out" sampleFile true)) =
        ["nsites", "formula", "atoms_id", "initial_magmoms"]
          ++ dictKeys sampleCalc.parameters ++ dictKeys sampleOutput.metadata ++ ["output"]
    ∧ dictJsonSafe (resultsOf (results_to_db sampleAtoms "orca.out" sampleFile true)) = true :=
  claim_C1 sampleAtoms sampleCalc "orca.out" sampleOutput sampleFile rfl (by decide) rfl rfl
    (by decide) (by decide) (by decide)

/-- Claim C6: normalization with `prep_next_run = true` detaches the
calculator, moves the final magnetic moments into the initial slot, assigns a
fresh unique identifier, and performs this reset before the structure-derived
fields of the record are computed — so the record's `atoms_id` field carries
the fresh identifier and its `initial_magmoms` field carries the migrated
final magnetic moments of the reset Structure. -/
theorem claim_C6 (atoms : Atoms) (c : Calculator) (m : List Rat) (path : String)
    (out : ParsedOutput) (fs : OutputFileState)
    (hcalc : atoms.calc_ = some c) (hmgm : c.magmoms = some m)
    (hres : c.results.isEmpty = false) (hdisk : fs.onDisk = true)
    (hparse : fs.parsed = some out)
    (hid1 : "atoms_id" ∉ dictKeys c.parameters)
    (hid2 : "atoms_id" ∉ dictKeys out.metadata)
    (hmg1 : "initial_magmoms" ∉ dictKeys c.parameters)
    (hmg2 : "initial_magmoms" ∉ dictKeys out.metadata) :
    (prep_next_run_ atoms).calc_ = none
  ∧ (prep_next_run_ atoms).initialMagmoms = m
  ∧ (prep_next_run_ atoms).uniqueId ≠ atoms.uniqueId
  ∧ dictLookup "atoms_id" (resultsOf (results_to_db atoms path fs true)) =
      some (.vint ((atoms.uniqueId : Int) + 1))
  ∧ dictLookup "initial_magmoms" (resultsOf (results_to_db atoms path fs true)) =
      some (.vlist (m.map PyVal.vrat)) := by
  have hprep_mm : (prep_next_run_ atoms).initialMagmoms = m := by
    unfold prep_next_run_
    rw [hcalc]
    simp [hmgm]
  have hprep_id : (prep_next_run_ atoms).uniqueId = atoms.uniqueId + 1 := rfl
  refine ⟨rfl, hprep_mm, by rw [hprep_id]; omega, ?_, ?_⟩
  · rw [results_to_db_success atoms c path out fs true hcalc hres hdisk hparse]
    show dictLookup "atoms_id" (jsanitizeDict _) = _
    rw [dictLookup_jsanitizeDict,
      dictLookup_dictMerge_right_none _ _ _ (by simp [dictLookup]),
      dictLookup_dictMerge_right_none _ _ _ (dictLookup_eq_none _ _ hid2),
      dictLookup_dictMerge_right_none _ _ _ (dictLookup_eq_none _ _ hid1)]
    show (dictLookup "atoms_id" (atoms_to_db (prep_next_run_ atoms))).map jsanitize = _
    rw [dictLookup_atoms_to_db_id, hprep_id]
    simp [jsanitize]
  · rw [results_to_db_success atoms c path out fs true hcalc hres hdisk hparse]
    show dictLookup "initial_magmoms" (jsanitizeDict _) = _
    rw [dictLookup_jsanitizeDict,
      dictLookup_dictMerge_right_none _ _ _ (by simp [dictLookup]),
      dictLookup_dictMerge_right_none _ _ _ (dictLookup_eq_none _ _ hmg2),
      dictLookup_dictMerge_right_none _ _ _ (dictLookup_eq_none _ _ hmg1)]
    show (dictLookup "initial_magmoms" (atoms_to_db (prep_next_run_ atoms))).map jsanitize = _
    rw [dictLookup_atoms_to_db_magmoms, hprep_mm]
    simp [jsanitize, jsanitizeList_vrat]

theorem claim_C6_witness :
    (prep_next_run_ sampleAtoms).calc_ = none
  ∧ (prep_next_run_ sampleAtoms).initialMagmoms = [1, 0, 0, 0, 0]
  ∧ (prep_next_run_ sampleAtoms).uniqueId ≠ sampleAtoms.uniqueId
  ∧ dictLookup "atoms_id" (resultsOf (results_to_db sampleAtoms "orca.out" sampleFile true)) =
      some (.vint ((sampleAtoms.uniqueId : Int) + 1))
  ∧ dictLookup "initial_magmoms"
      (resultsOf (results_to_db sampleAtoms "orca.out" sampleFile true)) =
      some (.vlist (([1, 0, 0, 0, 0] : List Rat).map PyVal.vrat)) :=
  claim_C6 sampleAtoms sampleCalc [1, 0, 0, 0, 0] "orca.out" sampleOutput sampleFile rfl rfl
    (by decide) rfl rfl (by decide) (by decide) (by decide) (by decide)

end Quacc
